import Mathlib

/-!
# Verification of the JusFinn procurement core

Shallow embedding of the purchase-order / goods-receipt / approval services
(`app/services/grn_service.py`, `app/services/po_approval_service.py`,
`app/services/purchase_order_service.py`) and the three-way matching
contract, together with theorems settling the specification claims.

Money and quantity fields are `Decimal` in the source; they are embedded as
rationals (`ℚ`), which model decimal arithmetic exactly.  Database rows are
embedded as Lean structures and a service call as a pure function returning
`Except`; an exception in the source rolls the enclosing transaction back,
so an error result leaves every row unchanged (made explicit by the `run*`
wrappers below, which return the original state on error).
-/

namespace JusFinn

/-- Enum `PurchaseOrderStatus` (`app/models/purchase_order_models.py`): the single
operational status enum of a purchase order; stored in the `status` column. -/
inductive POStatus where
  | draft
  | pending_approval
  | approved
  | acknowledged
  | in_progress
  | partially_delivered
  | delivered
  | completed
  | cancelled
  | rejected
  | partially_received
  | fully_received
  deriving DecidableEq, Repr

/-- Enum `GRNStatus` (`app/models/grn_models.py`), a `str` enum. -/
inductive GRNStatus where
  | draft
  | pending_approval
  | approved
  | rejected
  | completed
  | cancelled
  deriving DecidableEq, Repr

/-- The `.value` string of a `GRNStatus` member, as stored in the GRN
`status` column by `create_grn` (`status=grn_data.status.value`). -/
def GRNStatus.value : GRNStatus → String
  | .draft => "draft"
  | .pending_approval => "pending_approval"
  | .approved => "approved"
  | .rejected => "rejected"
  | .completed => "completed"
  | .cancelled => "cancelled"

/-- Row of `purchase_order_items` (`PurchaseOrderItem`): ordered
`quantity`, `received_quantity`, derived `pending_quantity`. -/
structure POItem where
  id : Nat
  item_description : String
  quantity : ℚ
  unit_price : ℚ
  total_amount : ℚ
  received_quantity : ℚ
  pending_quantity : ℚ
  deriving DecidableEq, Repr

/-- Row of `purchase_orders` (`PurchaseOrder`), with its owned line
items.  `status` is the operational status column written by the GRN and
lifecycle services; `approval_status` is the separate `String(20)` column
(default `'PENDING'`) written by the approval service (`app/models.py`). -/
structure PO where
  id : Nat
  po_number : String
  status : POStatus
  approval_status : String := "PENDING"
  approved_by : Option String := none
  subtotal : ℚ
  total_amount : ℚ
  items : List POItem
  deriving DecidableEq, Repr

/-- A line of the GRN create request as consumed by
`GRNService.create_grn`: reference to the PO line plus the quantities on
this receipt. -/
structure GRNItemReq where
  po_item_id : Nat
  item_description : String
  ordered_quantity : ℚ
  received_quantity : ℚ
  rejected_quantity : ℚ
  unit_price : ℚ
  deriving DecidableEq, Repr

/-- The GRN create request as consumed by `GRNService.create_grn` (the
fields that drive the reconciliation logic). -/
structure GRNCreateReq where
  po_id : Nat
  grn_number : String
  status : GRNStatus
  items : List GRNItemReq
  deriving DecidableEq, Repr

/-- A persisted GRN (`goods_receipt_notes_v2` header plus its item rows) as
the reconciliation logic observes it; `status` is the raw string column. -/
structure GRN where
  id : Nat
  grn_number : String
  po_id : Nat
  status : String
  items : List GRNItemReq
  deriving DecidableEq, Repr

/-- Errors raised by the GRN service (`ValueError`/`Exception` in the
source; every raise rolls the transaction back). -/
inductive GrnError where
  | poNotFound
  | poItemNotFound (po_item_id : Nat)
  | onlyDraftCompletable
  deriving DecidableEq, Repr

/-- One step of the quantity-update loop in `create_grn` (lines 120–145) and
`complete_draft_grn` (lines 546–563): look the PO line up by id, add this
receipt's quantity to `received_quantity`, recompute `pending_quantity` as
`max(0, quantity - new_received)`.  A missing line is silently skipped
(`if po_item:`). -/
def applyGrnItem (items : List POItem) (g : GRNItemReq) : List POItem :=
  items.map fun it =>
    if it.id = g.po_item_id then
      let newReceived := it.received_quantity + g.received_quantity
      let newPending := it.quantity - newReceived
      { it with
          received_quantity := newReceived,
          pending_quantity := max 0 newPending }
    else it

/-- The new status computed by `GRNService._update_po_status`
(lines 216–222): `total_received == 0` → `"approved"`,
`total_received >= total_ordered` → `"fully_received"`, otherwise
`"partially_received"`. -/
def derivePoStatus (items : List POItem) : POStatus :=
  let totalOrdered : ℚ := (items.map (·.quantity)).sum
  let totalReceived : ℚ := (items.map (·.received_quantity)).sum
  if totalReceived = 0 then .approved
  else if totalReceived ≥ totalOrdered then .fully_received
  else .partially_received

/-- Embeds `GRNService._update_po_status`: recompute and write the PO status from
the line quantities; with no line items the function returns early and the
status is untouched. -/
def updatePoStatus (po : PO) : PO :=
  if po.items.isEmpty then po
  else { po with status := derivePoStatus po.items }

/-- The per-item validation loop at the top of `create_grn` (lines 83–88):
raise on the first GRN line whose `po_item_id` is not a line of the PO. -/
def firstMissingRef (poItems : List POItem) : List GRNItemReq → Option Nat
  | [] => none
  | i :: rest =>
      if poItems.any (·.id = i.po_item_id) then firstMissingRef poItems rest
      else some i.po_item_id

/-- Embeds `GRNService.create_grn`: verify the PO exists, insert the GRN header
and items (validating that every `po_item_id` belongs to the PO), and —
only when the request status is `completed` — add the received quantities
onto the PO lines and recompute the PO status.  No check compares the new
received quantity against the ordered quantity.  Any raise rolls everything
back. -/
def create_grn (po : PO) (req : GRNCreateReq) : Except GrnError (GRN × PO) :=
  if po.id ≠ req.po_id then .error .poNotFound
  else match firstMissingRef po.items req.items with
  | some pid => .error (.poItemNotFound pid)
  | none =>
    let grn : GRN :=
      { id := 0, grn_number := req.grn_number, po_id := req.po_id,
        status := req.status.value, items := req.items }
    if req.status = GRNStatus.completed then
      let items' := req.items.foldl applyGrnItem po.items
      let po' := updatePoStatus { po with items := items' }
      .ok (grn, po')
    else
      .ok (grn, po)

/-- Embeds `GRNService.complete_draft_grn`: rejected unless the stored status
string equals `"DRAFT"`; otherwise every GRN item is added onto its PO line
exactly as in `create_grn`, the GRN is marked `"COMPLETED"`, and the PO
status is recomputed. -/
def complete_draft_grn (grn : GRN) (po : PO) : Except GrnError (GRN × PO) :=
  if grn.status ≠ "DRAFT" then .error .onlyDraftCompletable
  else
    let items' := grn.items.foldl applyGrnItem po.items
    let po' := updatePoStatus { po with items := items' }
    .ok ({ grn with status := "COMPLETED" }, po')

/-- Rollback semantics of `create_grn` on the PO aggregate: the PO rows
after the call — the updated rows on success, the untouched rows after the
exception handler's `session.rollback()`. -/
def runCreateGrn (po : PO) (req : GRNCreateReq) : PO :=
  match create_grn po req with
  | .ok (_, po') => po'
  | .error _ => po

/-- Enum `POApprovalStatusEnum` (`app/models.py`). -/
inductive POApprovalStatus where
  | draft
  | pending_approval
  | level_1_approved
  | level_2_approved
  | final_approved
  | rejected
  | cancelled
  deriving DecidableEq, Repr

/-- The `.value` string of a `POApprovalStatusEnum` member, as stored in
the purchase order's `approval_status` string column. -/
def POApprovalStatus.value : POApprovalStatus → String
  | .draft => "draft"
  | .pending_approval => "pending_approval"
  | .level_1_approved => "level_1_approved"
  | .level_2_approved => "level_2_approved"
  | .final_approved => "final_approved"
  | .rejected => "rejected"
  | .cancelled => "cancelled"

/-- Enum `ApprovalLevelEnum` (`app/models.py`). -/
inductive ApprovalLevel where
  | level_1
  | level_2
  | level_3
  | finance
  | admin
  deriving DecidableEq, Repr

/-- Enum `ApprovalStatusEnum` (`app/models.py`): per-level completion status. -/
inductive LevelStatus where
  | pending
  | approved
  | rejected
  deriving DecidableEq, Repr

/-- Enum `ApprovalActionEnum` (`app/models.py`). -/
inductive ApprovalAction where
  | submit
  | approve
  | reject
  | request_changes
  | cancel
  deriving DecidableEq, Repr

/-- Row of `po_approval_rules` (`POApprovalRule`): amount band, which
levels are required, the approver list per level (JSON array of user ids in
the source), and the auto-approval threshold. -/
structure ApprovalRule where
  id : Nat
  rule_name : String
  min_amount : ℚ
  max_amount : Option ℚ
  level_1_required : Bool
  level_2_required : Bool
  level_3_required : Bool
  finance_approval_required : Bool
  level_1_approvers : List String
  level_2_approvers : List String
  level_3_approvers : List String
  finance_approvers : List String
  auto_approve_below : ℚ
  is_active : Bool
  deriving DecidableEq, Repr

/-- Row of `po_approval_workflows` (`POApprovalWorkflow`): current level,
overall status, per-level outcome, applied rule.  Timestamp columns carry no
logic and are omitted. -/
structure Workflow where
  po_id : Nat
  current_level : Option ApprovalLevel
  approval_status : POApprovalStatus
  applied_rule : Option ApprovalRule
  level_1_status : LevelStatus := .pending
  level_1_approver : Option String := none
  level_2_status : LevelStatus := .pending
  level_2_approver : Option String := none
  level_3_status : LevelStatus := .pending
  level_3_approver : Option String := none
  finance_status : LevelStatus := .pending
  finance_approver : Option String := none
  submitted_by : Option String := none
  final_approved_by : Option String := none
  deriving DecidableEq, Repr

/-- Row of `po_approval_history` (`POApprovalHistory`, append-only audit log). -/
structure HistoryEntry where
  po_id : Nat
  approval_level : Option ApprovalLevel
  action : ApprovalAction
  approver_id : String
  comments : Option String
  previous_status : POApprovalStatus
  new_status : POApprovalStatus
  po_amount_at_time : ℚ
  deriving DecidableEq, Repr

/-- Errors raised by `POApprovalService` (all surfaced as `Exception`, each
rolling the transaction back). -/
inductive ApprovalError where
  | poNotFound
  | noApplicableRule
  | multipleResultsFound
  | notAuthorized
  | unsupportedAction
  deriving DecidableEq, Repr

/-- The SQL predicate of `_find_applicable_rule` (lines 307–315): the rule
is active, `min_amount <= amount`, and `max_amount >= amount` or
`max_amount IS NULL`. -/
def ruleMatches (r : ApprovalRule) (amount : ℚ) : Bool :=
  r.is_active && decide (r.min_amount ≤ amount) &&
    (match r.max_amount with
     | none => true
     | some m => decide (m ≥ amount))

/-- Insertion step of a stable sort by descending `min_amount` (the
`ORDER BY min_amount DESC` of `_find_applicable_rule`). -/
def insertByMinDesc (a : ApprovalRule) : List ApprovalRule → List ApprovalRule
  | [] => [a]
  | b :: bs =>
      if a.min_amount ≥ b.min_amount then a :: b :: bs
      else b :: insertByMinDesc a bs

/-- Sort rules by descending `min_amount` (the SQL `ORDER BY`). -/
def sortByMinDesc (l : List ApprovalRule) : List ApprovalRule :=
  l.foldr insertByMinDesc []

/-- Embeds `POApprovalService._find_applicable_rule`: SELECT the active rules
whose band contains `amount`, ORDER BY `min_amount` DESC, then
`scalar_one_or_none()` — which yields the row for exactly one match, `None`
for no match, and raises `MultipleResultsFound` when two or more rules
match. -/
def find_applicable_rule (rules : List ApprovalRule) (amount : ℚ) :
    Except ApprovalError (Option ApprovalRule) :=
  match sortByMinDesc (rules.filter (ruleMatches · amount)) with
  | [] => .ok none
  | [r] => .ok (some r)
  | _ :: _ :: _ => .error .multipleResultsFound

/-- Embeds `POApprovalService._auto_approve_po` (lines 320–344): create the
workflow directly in `FINAL_APPROVED` with no current level, mirror the
status onto the PO, and record a single history entry by
`"SYSTEM_AUTO_APPROVAL"`. -/
def auto_approve_po (po : PO) (rule : ApprovalRule) (submitted_by : String) :
    Workflow × PO × List HistoryEntry :=
  let wf : Workflow :=
    { po_id := po.id, current_level := none,
      approval_status := .final_approved, applied_rule := some rule,
      submitted_by := some submitted_by,
      final_approved_by := some "SYSTEM_AUTO_APPROVAL" }
  let po' := { po with
      approval_status := POApprovalStatus.final_approved.value,
      approved_by := some "SYSTEM_AUTO_APPROVAL" }
  let h : HistoryEntry :=
    { po_id := po.id, approval_level := some .admin, action := .approve,
      approver_id := "SYSTEM_AUTO_APPROVAL",
      comments := some "Auto-approved below threshold",
      previous_status := .draft, new_status := .final_approved,
      po_amount_at_time := po.total_amount }
  (wf, po', [h])

/-- Embeds `POApprovalService.submit_po_for_approval` (lines 81–145): find the
applicable rule (failing when none or several match), auto-approve when
`total_amount <= auto_approve_below`, otherwise open a workflow whose
`current_level` is `LEVEL_1` if `level_1_required` else `LEVEL_2` if
`level_2_required` else `FINANCE` — `LEVEL_3` does not appear in this
expression — set the PO to pending approval and record a SUBMIT history
entry.  The third component of the result is the list of history rows
appended by the call. -/
def submit_po_for_approval (po : PO) (rules : List ApprovalRule)
    (submitted_by : String) :
    Except ApprovalError (Workflow × PO × List HistoryEntry) :=
  match find_applicable_rule rules po.total_amount with
  | .error e => .error e
  | .ok none => .error .noApplicableRule
  | .ok (some rule) =>
    if po.total_amount ≤ rule.auto_approve_below then
      .ok (auto_approve_po po rule submitted_by)
    else
      let startLevel : ApprovalLevel :=
        if rule.level_1_required then .level_1
        else if rule.level_2_required then .level_2
        else .finance
      let wf : Workflow :=
        { po_id := po.id, current_level := some startLevel,
          approval_status := .pending_approval, applied_rule := some rule,
          submitted_by := some submitted_by }
      let po' := { po with
          approval_status := POApprovalStatus.pending_approval.value }
      let h : HistoryEntry :=
        { po_id := po.id, approval_level := some .level_1, action := .submit,
          approver_id := submitted_by, comments := none,
          previous_status := .draft, new_status := .pending_approval,
          po_amount_at_time := po.total_amount }
      .ok (wf, po', [h])

/-- Embeds `POApprovalService._is_authorized_approver` (lines 346–364): the actor
must be a member of the applied rule's approver list for the workflow's
current level; any other current level (including `ADMIN` and no rule)
yields `False`. -/
def is_authorized_approver (wf : Workflow) (approver_id : String) : Bool :=
  match wf.applied_rule with
  | none => false
  | some rule =>
    match wf.current_level with
    | some .level_1 => rule.level_1_approvers.contains approver_id
    | some .level_2 => rule.level_2_approvers.contains approver_id
    | some .level_3 => rule.level_3_approvers.contains approver_id
    | some .finance => rule.finance_approvers.contains approver_id
    | _ => false

/-- Embeds `POApprovalService._process_approval` (lines 366–429): mark the current
level approved and advance `current_level` to the next required level, or
finalize when no further level is required.  (Note the source's own quirk:
approving `LEVEL_3` with finance still required sets the overall status to
`LEVEL_2_APPROVED`.)  When `current_level` matches no branch the workflow
is returned unchanged. -/
def process_approval (wf : Workflow) (rule : ApprovalRule)
    (approver_id : String) : Workflow :=
  match wf.current_level with
  | some .level_1 =>
    let wf := { wf with
        level_1_status := LevelStatus.approved,
        level_1_approver := some approver_id }
    if rule.level_2_required then
      { wf with current_level := some .level_2,
                approval_status := .level_1_approved }
    else if rule.level_3_required then
      { wf with current_level := some .level_3,
                approval_status := .level_1_approved }
    else if rule.finance_approval_required then
      { wf with current_level := some .finance,
                approval_status := .level_1_approved }
    else
      { wf with approval_status := .final_approved,
                final_approved_by := some approver_id }
  | some .level_2 =>
    let wf := { wf with
        level_2_status := LevelStatus.approved,
        level_2_approver := some approver_id }
    if rule.level_3_required then
      { wf with current_level := some .level_3,
                approval_status := .level_2_approved }
    else if rule.finance_approval_required then
      { wf with current_level := some .finance,
                approval_status := .level_2_approved }
    else
      { wf with approval_status := .final_approved,
                final_approved_by := some approver_id }
  | some .level_3 =>
    let wf := { wf with
        level_3_status := LevelStatus.approved,
        level_3_approver := some approver_id }
    if rule.finance_approval_required then
      { wf with current_level := some .finance,
                approval_status := .level_2_approved }
    else
      { wf with approval_status := .final_approved,
                final_approved_by := some approver_id }
  | some .finance =>
    { wf with
        finance_status := LevelStatus.approved,
        finance_approver := some approver_id,
        approval_status := .final_approved,
        final_approved_by := some approver_id }
  | _ => wf

/-- Embeds `POApprovalService.process_approval_action` (lines 147–215): reject the
call unless the actor is an authorized approver for the current level;
then apply the requested action, mirror the resulting status onto the PO
(stamping `approved_by` on final approval), and append one history entry
whose level is the workflow's current level after the action. -/
def process_approval_action (wf : Workflow) (po : PO)
    (action : ApprovalAction) (comments : Option String)
    (approver_id : String) :
    Except ApprovalError (Workflow × PO × List HistoryEntry) :=
  if ¬ is_authorized_approver wf approver_id then
    .error .notAuthorized
  else
    let previous := wf.approval_status
    let wfRes : Except ApprovalError Workflow :=
      match action with
      | .approve =>
          match wf.applied_rule with
          | some rule => .ok (process_approval wf rule approver_id)
          | none => .error .notAuthorized
      | .reject => .ok { wf with approval_status := POApprovalStatus.rejected }
      | .request_changes =>
          .ok { wf with approval_status := POApprovalStatus.draft }
      | _ => .error .unsupportedAction
    match wfRes with
    | .error e => .error e
    | .ok wf' =>
      let newStatus := wf'.approval_status
      let po' := { po with
          approval_status := newStatus.value,
          approved_by :=
            if newStatus = POApprovalStatus.final_approved then
              some approver_id
            else po.approved_by }
      let h : HistoryEntry :=
        { po_id := po.id, approval_level := wf'.current_level,
          action := action, approver_id := approver_id, comments := comments,
          previous_status := previous, new_status := newStatus,
          po_amount_at_time := po.total_amount }
      .ok (wf', po', [h])

/-- Rollback semantics of `process_approval_action` on the workflow and PO
rows: the updated rows on success, the untouched rows after the exception
handler's `session.rollback()`. -/
def runApprovalAction (wf : Workflow) (po : PO) (action : ApprovalAction)
    (comments : Option String) (approver_id : String) : Workflow × PO :=
  match process_approval_action wf po action comments approver_id with
  | .ok (wf', po', _) => (wf', po')
  | .error _ => (wf, po)

/-- Errors raised by `PurchaseOrderService` (`ValueError`/`Exception` in
the source). -/
inductive PoServiceError where
  | notFound
  | conflictPoNumber
  | invalidState
  | lineItemInsertFailed
  deriving DecidableEq, Repr

/-- Result dict of `PurchaseOrderService.submit_for_approval`. -/
structure SubmitResult where
  success : Bool
  new_status : POStatus
  deriving DecidableEq, Repr

/-- Embeds `PurchaseOrderService.submit_for_approval` (lines 528–569): a PO may be
submitted only from `draft` or `rejected` (lines 549–550); otherwise a
`ValueError` is raised and the transaction rolled back.  On success the
status becomes `pending_approval`. -/
def submit_for_approval (po : PO) : Except PoServiceError (PO × SubmitResult) :=
  if po.status ≠ POStatus.draft ∧ po.status ≠ POStatus.rejected then
    .error .invalidState
  else
    .ok ({ po with status := POStatus.pending_approval },
         { success := true, new_status := POStatus.pending_approval })

/-- Rollback semantics of `submit_for_approval` on the PO row. -/
def runSubmitForApproval (po : PO) : PO :=
  match submit_for_approval po with
  | .ok (po', _) => po'
  | .error _ => po

/-- Request model `POLineItem` (`purchase_order_models.py`): one line of a
create/update request. -/
structure POLineReq where
  item_description : String
  unit : String
  quantity : ℚ
  unit_price : ℚ
  discount_percentage : ℚ
  total_amount : ℚ
  deriving DecidableEq, Repr

/-- Request model `PurchaseOrderCreateRequest` — the fields that drive
`create_purchase_order`. -/
structure POCreateReq where
  po_number : String
  line_items : List POLineReq
  deriving DecidableEq, Repr

/-- A fresh `purchase_order_items` row inserted by `create_purchase_order`
for one request line (`received_quantity`/`pending_quantity` take their
column defaults of 0). -/
def newPoItem (poItemId : Nat) (it : POLineReq) : POItem :=
  { id := poItemId, item_description := it.item_description,
    quantity := it.quantity, unit_price := it.unit_price,
    total_amount := it.total_amount,
    received_quantity := 0, pending_quantity := 0 }

/-- Embeds `PurchaseOrderService.create_purchase_order` (lines 21–208): reject a
duplicate `po_number`; compute `subtotal`/`total_amount` as the sum of the
line totals; **commit the PO header in a first transaction (line 130)**;
then insert the line items and commit them in a second transaction
(line 161).  `itemInsertOk i` says whether inserting the `i`-th line item
succeeds; a failing insert raises, and the handler's rollback undoes only
the uncommitted second transaction, so the already-committed header
survives with zero line items.  The state is the list of committed PO rows;
`newId` models the generated primary key. -/
def create_purchase_order (db : List PO) (req : POCreateReq) (newId : Nat)
    (itemInsertOk : Nat → Bool) : List PO × Except PoServiceError PO :=
  if db.any (·.po_number = req.po_number) then
    (db, .error .conflictPoNumber)
  else
    let subtotal : ℚ := (req.line_items.map (·.total_amount)).sum
    let header : PO :=
      { id := newId, po_number := req.po_number, status := POStatus.draft,
        subtotal := subtotal, total_amount := subtotal, items := [] }
    let db1 := db ++ [header]
    if (List.range req.line_items.length).all itemInsertOk then
      let items := (req.line_items.enum).map fun p => newPoItem p.1 p.2
      let po' := { header with items := items }
      (db1.map fun p => if p.id = newId then po' else p, .ok po')
    else
      (db1, .error .lineItemInsertFailed)

/-- A purchase bill line as used by the three-way match: reference to the
PO line, billed quantity and unit price. -/
structure BillLine where
  po_item_id : Nat
  quantity : ℚ
  unit_price : ℚ
  deriving DecidableEq, Repr

/-- A GRN line as seen by the three-way match: reference to the PO line and
the accepted quantity. -/
structure GrnAcceptedLine where
  po_item_id : Nat
  accepted_quantity : ℚ
  deriving DecidableEq, Repr

/-- Result of the three-way match. -/
structure MatchResult where
  is_matched : Bool
  price_variance_pct : ℚ
  quantity_variance_pct : ℚ
  deriving DecidableEq, Repr

/-- Per-line variances of the three-way match: for a bill line joined by
`po_item_id` to a PO line and a GRN line, the pair
`((bill_unit_price − po_unit_price) / po_unit_price,
(bill_quantity − grn_accepted_quantity) / grn_accepted_quantity)`. -/
def matchLineVariances (poLines : List POItem) (grnLines : List GrnAcceptedLine)
    (billLines : List BillLine) : List (ℚ × ℚ) :=
  billLines.filterMap fun b =>
    match poLines.find? (·.id = b.po_item_id),
          grnLines.find? (·.po_item_id = b.po_item_id) with
    | some p, some g =>
        some ((b.unit_price - p.unit_price) / p.unit_price,
              (b.quantity - g.accepted_quantity) / g.accepted_quantity)
    | _, _ => none

/-- Modelled from the spec: the implementation
`purchase_expense_service.perform_three_way_matching` called by the router
`perform_three_way_matching` (`app/routers/purchase_expense.py`,
lines 712–733) is absent from the source tree; this definition follows
§4.5 of the spec.  Per matching line (joined by `po_item_id`), price
variance is `(bill_unit_price − po_unit_price) / po_unit_price` and
quantity variance is
`(bill_quantity − grn_accepted_quantity) / grn_accepted_quantity`;
each is aggregated to the maximum absolute variance across lines, and
`matched` holds exactly when both aggregates are within `tolerance_pct`.
A pure read/report computation: it returns a result and touches no row. -/
def perform_three_way_matching (poLines : List POItem)
    (grnLines : List GrnAcceptedLine) (billLines : List BillLine)
    (tolerance_pct : ℚ) : MatchResult :=
  let vars := matchLineVariances poLines grnLines billLines
  let priceVar : ℚ := ((vars.map fun v => |v.1|).foldr max 0)
  let qtyVar : ℚ := ((vars.map fun v => |v.2|).foldr max 0)
  { is_matched :=
      decide (priceVar ≤ tolerance_pct) && decide (qtyVar ≤ tolerance_pct),
    price_variance_pct := priceVar,
    quantity_variance_pct := qtyVar }

/-! ## Claim C1 — over-receipt is not rejected -/

/-- PO line with 100 ordered, 50 already received (Scenario D shape). -/
def c1Item : POItem :=
  { id := 1, item_description := "Widget", quantity := 100, unit_price := 10,
    total_amount := 1000, received_quantity := 50, pending_quantity := 50 }

/-- A PO holding `c1Item`. -/
def c1Po : PO :=
  { id := 7, po_number := "PO-1", status := .approved,
    subtotal := 1000, total_amount := 1000, items := [c1Item] }

/-- A completed GRN posting 60 more units against `c1Item`: 50 + 60 = 110
would exceed the ordered 100. -/
def c1Req : GRNCreateReq :=
  { po_id := 7, grn_number := "GRN-1", status := .completed,
    items := [{ po_item_id := 1, item_description := "Widget",
                ordered_quantity := 100, received_quantity := 60,
                rejected_quantity := 0, unit_price := 10 }] }

/-- Claim C1, counterexample: posting a completed GRN that pushes a line's
received quantity to 110 against ordered 100 does NOT fail with a
ValidationError — `create_grn` succeeds, the PO line's `received_quantity`
is mutated to 110 and `pending_quantity` is clamped to 0.  The claimed
all-or-nothing rejection does not exist in the code. -/
theorem grn_overshoot_not_rejected_cx :
    (create_grn c1Po c1Req).toOption.map
        (fun x => (x.2.items.map (·.received_quantity),
                   x.2.items.map (·.pending_quantity))) =
      some ([110], [0]) := by
  norm_num [create_grn, firstMissingRef, applyGrnItem, updatePoStatus,
    derivePoStatus, c1Po, c1Req, c1Item, Except.toOption]

/-- Claim C1, amended: when a completed GRN line would push a PO line's
received quantity beyond its ordered quantity, `create_grn` still succeeds
(no ValidationError): the line's `received_quantity` is incremented past
the ordered quantity unconditionally and its `pending_quantity` is clamped
to 0. -/
theorem grn_overshoot_applied_clamped
    (po : PO) (it : POItem) (req : GRNCreateReq) (g : GRNItemReq)
    (hpo : po.items = [it]) (hreq : req.items = [g])
    (hid : g.po_item_id = it.id) (hpoid : req.po_id = po.id)
    (hst : req.status = .completed)
    (hover : it.quantity < it.received_quantity + g.received_quantity) :
    ∃ grn po', create_grn po req = .ok (grn, po') ∧
      po'.items.map (·.received_quantity) =
        [it.received_quantity + g.received_quantity] ∧
      po'.items.map (·.pending_quantity) = [0] := by
  have hpend : max 0 (it.quantity -
      (it.received_quantity + g.received_quantity)) = 0 :=
    max_eq_left (by linarith)
  have hcg : create_grn po req = .ok
      ({ id := 0, grn_number := req.grn_number, po_id := req.po_id,
         status := req.status.value, items := req.items },
       updatePoStatus
         { po with items := req.items.foldl applyGrnItem po.items }) := by
    simp [create_grn, hpoid, hpo, hreq, hid, hst, firstMissingRef]
  refine ⟨_, _, hcg, ?_, ?_⟩ <;>
    simp [hpo, hreq, applyGrnItem, hid, updatePoStatus, derivePoStatus, hpend]

/-- Witness for `grn_overshoot_applied_clamped` at the Scenario D input. -/
theorem grn_overshoot_applied_clamped_witness :
    ∃ grn po', create_grn c1Po c1Req = .ok (grn, po') ∧
      po'.items.map (·.received_quantity) =
        [c1Item.received_quantity +
          (50 : ℚ) + 60 - c1Item.received_quantity] ∧
      po'.items.map (·.pending_quantity) = [0] := by
  have h := grn_overshoot_applied_clamped c1Po c1Item c1Req
    { po_item_id := 1, item_description := "Widget",
      ordered_quantity := 100, received_quantity := 60,
      rejected_quantity := 0, unit_price := 10 }
    (by norm_num [c1Po, c1Item]) (by norm_num [c1Req])
    (by norm_num [c1Item]) (by norm_num [c1Req, c1Po])
    (by norm_num [c1Req]) (by norm_num [c1Item])
  obtain ⟨grn, po', hok, hrec, hpend⟩ := h
  exact ⟨grn, po', hok, by rw [hrec]; norm_num [c1Item], hpend⟩

/-! ## Claim C2 — status derivation after a completed GRN -/

/-- A PO in `in_progress` with nothing received yet. -/
def c2Po : PO :=
  { id := 7, po_number := "PO-1", status := .in_progress,
    subtotal := 1000, total_amount := 1000,
    items := [{ id := 1, item_description := "Widget", quantity := 100,
                unit_price := 10, total_amount := 1000,
                received_quantity := 0, pending_quantity := 100 }] }

/-- A completed GRN whose only line receives 0 units. -/
def c2Req : GRNCreateReq :=
  { po_id := 7, grn_number := "GRN-2", status := .completed,
    items := [{ po_item_id := 1, item_description := "Widget",
                ordered_quantity := 100, received_quantity := 0,
                rejected_quantity := 0, unit_price := 10 }] }

/-- Claim C2, counterexample: after a completed GRN leaves the total
received at 0, the PO status is NOT left as-is — `_update_po_status`
overwrites the `in_progress` status with `approved`. -/
theorem zero_received_status_overwritten_cx :
    (create_grn c2Po c2Req).toOption.map (·.2.status) =
        some POStatus.approved ∧
      c2Po.status = POStatus.in_progress := by
  constructor
  · norm_num [create_grn, firstMissingRef, applyGrnItem, updatePoStatus,
      derivePoStatus, c2Po, c2Req, Except.toOption]
  · rfl

/-- Claim C2, amended: the status recomputed from the line quantities by
`_update_po_status` (for a PO with at least one line) is: `approved` —
not the previous status — when the total received is 0; `fully_received`
when the total received is nonzero and at least the total ordered;
`partially_received` otherwise. -/
theorem updatePoStatus_branches (po : PO) (hne : po.items ≠ []) :
    ((po.items.map (·.received_quantity)).sum = 0 →
        (updatePoStatus po).status = POStatus.approved) ∧
    ((po.items.map (·.received_quantity)).sum ≠ 0 →
      (po.items.map (·.quantity)).sum ≤ (po.items.map (·.received_quantity)).sum →
        (updatePoStatus po).status = POStatus.fully_received) ∧
    ((po.items.map (·.received_quantity)).sum ≠ 0 →
      (po.items.map (·.received_quantity)).sum < (po.items.map (·.quantity)).sum →
        (updatePoStatus po).status = POStatus.partially_received) := by
  have hne' : po.items.isEmpty = false := by
    simpa [List.isEmpty_iff] using hne
  refine ⟨fun h0 => ?_, fun h0 hge => ?_, fun h0 hlt => ?_⟩
  · simp [updatePoStatus, derivePoStatus, hne', h0]
  · simp [updatePoStatus, derivePoStatus, hne', h0, ge_iff_le, hge]
  · simp [updatePoStatus, derivePoStatus, hne', h0, ge_iff_le, hlt.not_le]

/-- Witness for `updatePoStatus_branches`: one line, ordered 100 and
received 60 — the recomputed status is `partially_received`. -/
theorem updatePoStatus_branches_witness :
    (updatePoStatus
      { id := 7, po_number := "PO-1", status := .approved,
        subtotal := 1000, total_amount := 1000,
        items := [{ id := 1, item_description := "Widget", quantity := 100,
                    unit_price := 10, total_amount := 1000,
                    received_quantity := 60,
                    pending_quantity := 40 }] }).status =
      POStatus.partially_received := by
  exact (updatePoStatus_branches _ (by norm_num)).2.2
    (by norm_num) (by norm_num)

/-! ## Claim C9 — a draft GRN does not touch the PO -/

/-- Claim C9: a GRN created in `DRAFT` status leaves the purchase order —
its line `received_quantity`/`pending_quantity` and its status — entirely
unchanged; `create_grn` only mutates PO rows when the request status is
`completed`. -/
theorem draft_grn_leaves_po_unchanged (po : PO) (req : GRNCreateReq)
    (hdraft : req.status = GRNStatus.draft) :
    runCreateGrn po req = po := by
  have hne : req.status ≠ GRNStatus.completed := by simp [hdraft]
  have key : ∀ g po', create_grn po req = .ok (g, po') → po' = po := by
    intro g po' h
    unfold create_grn at h
    rw [if_neg hne] at h
    split at h
    · exact absurd h (by simp)
    · split at h
      · exact absurd h (by simp)
      · cases h
        rfl
  cases hc : create_grn po req with
  | error e => simp [runCreateGrn, hc]
  | ok a =>
      obtain ⟨g, po'⟩ := a
      simp [runCreateGrn, hc, key g po' hc]

/-- Witness for `draft_grn_leaves_po_unchanged`: a draft version of the
Scenario D receipt leaves the PO untouched. -/
theorem draft_grn_leaves_po_unchanged_witness :
    runCreateGrn c1Po { c1Req with status := GRNStatus.draft } = c1Po :=
  draft_grn_leaves_po_unchanged c1Po _ rfl

/-! ## Claim C3 — first required level on submission -/

/-- An active rule requiring only `LEVEL_3` and `FINANCE`. -/
def c3Rule : ApprovalRule :=
  { id := 1, rule_name := "L3 and finance", min_amount := 0,
    max_amount := none, level_1_required := false,
    level_2_required := false, level_3_required := true,
    finance_approval_required := true, level_1_approvers := [],
    level_2_approvers := [], level_3_approvers := ["lee"],
    finance_approvers := ["fin"], auto_approve_below := 0,
    is_active := true }

/-- A draft PO over the auto-approval threshold. -/
def c3Po : PO :=
  { id := 9, po_number := "PO-9", status := .draft,
    subtotal := 1000, total_amount := 1000, items := [] }

/-- Claim C3, failing input: under a rule requiring only `LEVEL_3` (and
`FINANCE`), submission sets `current_level` to `FINANCE` — the expression
at lines 117–119 of `po_approval_service.py` never produces `LEVEL_3` —
and a single `FINANCE` approval then reaches `final_approved` while
`level_3_status` is still `pending`, so a required level was never
individually approved. -/
theorem level3_skipped_on_submission_cx :
    (submit_po_for_approval c3Po [c3Rule] "sub").toOption.map
        (·.1.current_level) = some (some ApprovalLevel.finance) ∧
      ((submit_po_for_approval c3Po [c3Rule] "sub").toOption.bind fun r =>
        (process_approval_action r.1 r.2.1 .approve none "fin").toOption.map
          fun s => (s.1.approval_status, s.1.level_3_status))
        = some (POApprovalStatus.final_approved, LevelStatus.pending) := by
  constructor <;> decide

/-! ## Claim C4 — rule resolution with overlapping bands -/

/-- Active rule covering 0–10000 with a single level-1 approver. -/
def c4r1 : ApprovalRule :=
  { id := 1, rule_name := "base band", min_amount := 0,
    max_amount := some 10000, level_1_required := true,
    level_2_required := false, level_3_required := false,
    finance_approval_required := false, level_1_approvers := ["a"],
    level_2_approvers := [], level_3_approvers := [],
    finance_approvers := [], auto_approve_below := 0, is_active := true }

/-- Active rule covering 5000–∞, overlapping `c4r1`; under the claimed
tie-break (highest `min_amount`) it should win at amount 7000. -/
def c4r2 : ApprovalRule :=
  { c4r1 with
    id := 2, rule_name := "tight band", min_amount := 5000,
    max_amount := none }

/-- Claim C4, counterexample: both rules match amount 7000, and instead of
returning the one with the highest `min_amount`, `_find_applicable_rule`
fails — `scalar_one_or_none()` raises `MultipleResultsFound` on two rows. -/
theorem overlapping_rules_error_cx :
    ruleMatches c4r1 7000 = true ∧ ruleMatches c4r2 7000 = true ∧
      find_applicable_rule [c4r1, c4r2] 7000 =
        .error .multipleResultsFound := by
  refine ⟨by decide, by decide, ?_⟩
  norm_num [find_applicable_rule, sortByMinDesc, insertByMinDesc,
    ruleMatches, c4r1, c4r2]

/-- Inserting with `insertByMinDesc` adds exactly one element. -/
theorem insertByMinDesc_length (a : ApprovalRule) (l : List ApprovalRule) :
    (insertByMinDesc a l).length = l.length + 1 := by
  induction l with
  | nil => rfl
  | cons b bs ih =>
      rw [insertByMinDesc]
      split
      · rfl
      · simp [ih]

/-- The `ORDER BY` step keeps the number of matching rows. -/
theorem sortByMinDesc_length (l : List ApprovalRule) :
    (sortByMinDesc l).length = l.length := by
  induction l with
  | nil => rfl
  | cons b bs ih =>
      rw [sortByMinDesc, List.foldr_cons, ← sortByMinDesc,
        insertByMinDesc_length, ih, List.length_cons]

/-- Claim C4, amended: the resolver considers exactly the active rules with
`min_amount ≤ amount` and (`max_amount` null or `≥ amount`); it returns the
rule when exactly one matches and `None` when none does, but when two or
more active rules match it raises `MultipleResultsFound` instead of
returning the match with the highest `min_amount`. -/
theorem find_rule_unique_or_error (rules : List ApprovalRule) (amount : ℚ) :
    (rules.filter (ruleMatches · amount) = [] →
        find_applicable_rule rules amount = .ok none) ∧
    (∀ r, rules.filter (ruleMatches · amount) = [r] →
        find_applicable_rule rules amount = .ok (some r)) ∧
    (2 ≤ (rules.filter (ruleMatches · amount)).length →
        find_applicable_rule rules amount =
          .error .multipleResultsFound) := by
  refine ⟨fun h => ?_, fun r h => ?_, fun h => ?_⟩
  · rw [find_applicable_rule, h]
    rfl
  · rw [find_applicable_rule, h]
    rfl
  · rw [find_applicable_rule]
    have hlen : 2 ≤ (sortByMinDesc (rules.filter (ruleMatches · amount))).length := by
      rw [sortByMinDesc_length]
      exact h
    rcases hs : sortByMinDesc (rules.filter (ruleMatches · amount)) with
      _ | ⟨a, _ | ⟨b, t⟩⟩
    · rw [hs] at hlen
      exact absurd hlen (by norm_num)
    · rw [hs] at hlen
      exact absurd hlen (by norm_num)
    · rfl

/-- Witness for `find_rule_unique_or_error`: with the single rule `c4r1`,
amount 7000 resolves to `c4r1`; with both overlapping rules the resolver
errors. -/
theorem find_rule_unique_or_error_witness :
    find_applicable_rule [c4r1] 7000 = .ok (some c4r1) ∧
      find_applicable_rule [c4r1, c4r2] 7000 =
        .error .multipleResultsFound :=
  ⟨(find_rule_unique_or_error [c4r1] 7000).2.1 c4r1 (by decide),
   (find_rule_unique_or_error [c4r1, c4r2] 7000).2.2 (by decide)⟩

/-! ## Claim C5 — auto-approval below the threshold -/

/-- Claim C5: when the applicable rule's `auto_approve_below` covers the
PO's `total_amount`, `submit_po_for_approval` returns the auto-approval
outcome: the workflow is created directly in `final_approved` with no
current (pending) level, the PO's approval status mirrors
`final_approved`, and exactly one history entry is appended, attributed to
`"SYSTEM_AUTO_APPROVAL"` rather than to a human approver. -/
theorem auto_approval_immediate (po : PO) (rules : List ApprovalRule)
    (rule : ApprovalRule) (sb : String)
    (hfind : find_applicable_rule rules po.total_amount = .ok (some rule))
    (hauto : po.total_amount ≤ rule.auto_approve_below) :
    submit_po_for_approval po rules sb =
        .ok (auto_approve_po po rule sb) ∧
      (auto_approve_po po rule sb).1.approval_status =
        POApprovalStatus.final_approved ∧
      (auto_approve_po po rule sb).1.current_level = none ∧
      (auto_approve_po po rule sb).1.final_approved_by =
        some "SYSTEM_AUTO_APPROVAL" ∧
      (auto_approve_po po rule sb).2.1.approval_status =
        POApprovalStatus.final_approved.value ∧
      (auto_approve_po po rule sb).2.2.map (·.approver_id) =
        ["SYSTEM_AUTO_APPROVAL"] := by
  refine ⟨?_, rfl, rfl, rfl, rfl, rfl⟩
  unfold submit_po_for_approval
  rw [hfind]
  simp [hauto]

/-- Scenario A rule: `auto_approve_below = 5000`. -/
def c5Rule : ApprovalRule :=
  { c4r1 with auto_approve_below := 5000 }

/-- Scenario A PO: `total_amount = 2000`. -/
def c5Po : PO :=
  { id := 3, po_number := "PO-3", status := .draft,
    subtotal := 2000, total_amount := 2000, items := [] }

/-- Witness for `auto_approval_immediate` at the Scenario A input. -/
theorem auto_approval_immediate_witness :
    submit_po_for_approval c5Po [c5Rule] "submitter" =
        .ok (auto_approve_po c5Po c5Rule "submitter") ∧
      (auto_approve_po c5Po c5Rule "submitter").2.2.map (·.approver_id) =
        ["SYSTEM_AUTO_APPROVAL"] := by
  have h := auto_approval_immediate c5Po [c5Rule] c5Rule "submitter"
    (by norm_num [find_applicable_rule, sortByMinDesc, insertByMinDesc,
      ruleMatches, c5Rule, c4r1, c5Po])
    (by norm_num [c5Rule, c4r1, c5Po])
  exact ⟨h.1, h.2.2.2.2.2⟩

/-! ## Claim C6 — unauthorized approvers are rejected -/

/-- The applied rule's approver list for a given level (the four real
levels; `ADMIN` has no configured list). -/
def levelApprovers (rule : ApprovalRule) : ApprovalLevel → List String
  | .level_1 => rule.level_1_approvers
  | .level_2 => rule.level_2_approvers
  | .level_3 => rule.level_3_approvers
  | .finance => rule.finance_approvers
  | .admin => []

/-- Claim C6: an actor who is not in the applied rule's approver list for
the workflow's current level is rejected — `process_approval_action` fails
with the not-authorized error and, the transaction being rolled back, the
workflow state and the PO are unchanged. -/
theorem unauthorized_approver_rejected (wf : Workflow) (po : PO)
    (rule : ApprovalRule) (lvl : ApprovalLevel) (action : ApprovalAction)
    (comments : Option String) (actor : String)
    (hrule : wf.applied_rule = some rule)
    (hlvl : wf.current_level = some lvl)
    (hadm : lvl ≠ ApprovalLevel.admin)
    (hnot : (levelApprovers rule lvl).contains actor = false) :
    process_approval_action wf po action comments actor =
        .error .notAuthorized ∧
      runApprovalAction wf po action comments actor = (wf, po) := by
  have hauth : is_authorized_approver wf actor = false := by
    unfold is_authorized_approver
    rw [hrule, hlvl]
    cases lvl
    · exact hnot
    · exact hnot
    · exact hnot
    · exact hnot
    · exact absurd rfl hadm
  have herr : process_approval_action wf po action comments actor =
      .error .notAuthorized := by
    unfold process_approval_action
    rw [if_pos]
    simp [hauth]
  exact ⟨herr, by simp [runApprovalAction, herr]⟩

/-- Scenario E rule: levels 1 and 2 required, "bob" the only LEVEL_2
approver. -/
def c6Rule : ApprovalRule :=
  { id := 4, rule_name := "two levels", min_amount := 0,
    max_amount := none, level_1_required := true,
    level_2_required := true, level_3_required := false,
    finance_approval_required := false, level_1_approvers := ["ann"],
    level_2_approvers := ["bob"], level_3_approvers := [],
    finance_approvers := [], auto_approve_below := 0, is_active := true }

/-- Scenario E workflow: waiting at `LEVEL_2` under `c6Rule`. -/
def c6Wf : Workflow :=
  { po_id := 5, current_level := some .level_2,
    approval_status := .level_1_approved, applied_rule := some c6Rule,
    level_1_status := .approved, level_1_approver := some "ann" }

/-- Scenario E PO. -/
def c6Po : PO :=
  { id := 5, po_number := "PO-5", status := .pending_approval,
    approval_status := "level_1_approved",
    subtotal := 50000, total_amount := 50000, items := [] }

/-- Witness for `unauthorized_approver_rejected`: "eve", not a LEVEL_2
approver, attempts an approval while `current_level = LEVEL_2`. -/
theorem unauthorized_approver_rejected_witness :
    process_approval_action c6Wf c6Po .approve none "eve" =
        .error .notAuthorized ∧
      runApprovalAction c6Wf c6Po .approve none "eve" = (c6Wf, c6Po) :=
  unauthorized_approver_rejected c6Wf c6Po c6Rule .level_2 .approve none
    "eve" rfl rfl (by decide) (by decide)

/-! ## Claim C7 — submission allowed only from draft or rejected -/

/-- Claim C7: a PO whose status is neither `draft` nor `rejected` cannot be
submitted for approval — `submit_for_approval` fails with the
invalid-state error and the PO row is unchanged. -/
theorem submit_requires_draft_or_rejected (po : PO)
    (h1 : po.status ≠ POStatus.draft) (h2 : po.status ≠ POStatus.rejected) :
    submit_for_approval po = .error .invalidState ∧
      runSubmitForApproval po = po := by
  have herr : submit_for_approval po = .error .invalidState := by
    unfold submit_for_approval
    rw [if_pos ⟨h1, h2⟩]
  exact ⟨herr, by simp [runSubmitForApproval, herr]⟩

/-- Witness for `submit_requires_draft_or_rejected`: an `approved` PO. -/
theorem submit_requires_draft_or_rejected_witness :
    submit_for_approval
        { id := 2, po_number := "PO-2", status := POStatus.approved,
          subtotal := 100, total_amount := 100, items := [] } =
        .error .invalidState ∧
      runSubmitForApproval
        { id := 2, po_number := "PO-2", status := POStatus.approved,
          subtotal := 100, total_amount := 100, items := [] } =
        { id := 2, po_number := "PO-2", status := POStatus.approved,
          subtotal := 100, total_amount := 100, items := [] } :=
  submit_requires_draft_or_rejected _ (by decide) (by decide)

/-! ## Claim C8 — three-way match (spec-modelled) -/

/-- Every member of a list is bounded by `foldr max b`. -/
theorem le_foldr_max (l : List ℚ) (b : ℚ) (x : ℚ) (hx : x ∈ l) :
    x ≤ l.foldr max b := by
  induction l with
  | nil => cases hx
  | cons a t ih =>
      rcases List.mem_cons.mp hx with rfl | hx'
      · exact le_max_left _ _
      · exact (ih hx').trans (le_max_right _ _)

/-- The initial value is bounded by `foldr max b`. -/
theorem init_le_foldr_max (l : List ℚ) (b : ℚ) : b ≤ l.foldr max b := by
  induction l with
  | nil => exact le_refl _
  | cons a t ih => exact ih.trans (le_max_right _ _)

/-- Claim C8: the three-way match reports, per bill line joined by
`po_item_id`, the price variance `(bill − po) / po` and quantity variance
`(bill − grn accepted) / grn accepted`; the reported bill-level variances
dominate every per-line absolute variance (maximum aggregation), and
`is_matched` holds exactly when both reported variances are within the
tolerance.  The operation is a pure report: it returns a `MatchResult` and
mutates nothing. -/
theorem three_way_match_aggregates_max (poLines : List POItem)
    (grnLines : List GrnAcceptedLine) (billLines : List BillLine)
    (tol : ℚ) :
    ((perform_three_way_matching poLines grnLines billLines tol).is_matched
        = true ↔
      ((perform_three_way_matching poLines grnLines billLines
          tol).price_variance_pct ≤ tol ∧
       (perform_three_way_matching poLines grnLines billLines
          tol).quantity_variance_pct ≤ tol)) ∧
    (∀ v ∈ matchLineVariances poLines grnLines billLines,
      |v.1| ≤ (perform_three_way_matching poLines grnLines billLines
          tol).price_variance_pct ∧
      |v.2| ≤ (perform_three_way_matching poLines grnLines billLines
          tol).quantity_variance_pct) ∧
    0 ≤ (perform_three_way_matching poLines grnLines billLines
        tol).price_variance_pct ∧
    0 ≤ (perform_three_way_matching poLines grnLines billLines
        tol).quantity_variance_pct := by
  refine ⟨?_, fun v hv => ⟨?_, ?_⟩, ?_, ?_⟩
  · simp [perform_three_way_matching]
  · exact le_foldr_max _ 0 _ (List.mem_map_of_mem _ hv)
  · exact le_foldr_max _ 0 _ (List.mem_map_of_mem _ hv)
  · exact init_le_foldr_max _ 0
  · exact init_le_foldr_max _ 0

/-- Concrete PO line for the three-way match witness. -/
def c8PoLine : POItem :=
  { id := 1, item_description := "Widget", quantity := 100,
    unit_price := 10, total_amount := 1000, received_quantity := 100,
    pending_quantity := 0 }

/-- Witness for `three_way_match_aggregates_max`: one joined line with 10%
price variance and 10% quantity variance. -/
theorem three_way_match_aggregates_max_witness :
    |((11 : ℚ) - 10) / 10| ≤
        (perform_three_way_matching [c8PoLine]
          [{ po_item_id := 1, accepted_quantity := 100 }]
          [{ po_item_id := 1, quantity := 110, unit_price := 11 }]
          (5 : ℚ)).price_variance_pct ∧
      0 ≤ (perform_three_way_matching [c8PoLine]
          [{ po_item_id := 1, accepted_quantity := 100 }]
          [{ po_item_id := 1, quantity := 110, unit_price := 11 }]
          (5 : ℚ)).quantity_variance_pct := by
  have h := three_way_match_aggregates_max [c8PoLine]
    [{ po_item_id := 1, accepted_quantity := 100 }]
    [{ po_item_id := 1, quantity := 110, unit_price := 11 }] (5 : ℚ)
  refine ⟨?_, h.2.2.2⟩
  have hv := h.2.1 (((11 : ℚ) - 10) / 10, ((110 : ℚ) - 100) / 100)
    (by norm_num [matchLineVariances, c8PoLine, List.find?])
  exact hv.1

/-! ## Claim C10 — PO creation is not all-or-nothing -/

/-- Claim C10: `create_purchase_order` commits the PO header (status
`draft`, totals computed from the request lines) in a first transaction
before inserting the line items in a second; when any line-item insert
fails, the call errors but the already-committed header remains persisted
with zero line items. -/
theorem po_creation_not_atomic (db : List PO) (req : POCreateReq)
    (newId : Nat) (itemInsertOk : Nat → Bool)
    (hfresh : db.any (·.po_number = req.po_number) = false)
    (i : Nat) (hi : i < req.line_items.length)
    (hfail : itemInsertOk i = false) :
    create_purchase_order db req newId itemInsertOk =
      (db ++ [{ id := newId, po_number := req.po_number,
                status := POStatus.draft,
                subtotal := (req.line_items.map (·.total_amount)).sum,
                total_amount := (req.line_items.map (·.total_amount)).sum,
                items := [] }],
       .error .lineItemInsertFailed) := by
  have hall : (List.range req.line_items.length).all itemInsertOk = false := by
    rw [Bool.eq_false_iff]
    intro hcon
    have := List.all_eq_true.mp hcon i (List.mem_range.mpr hi)
    rw [hfail] at this
    cases this
  simp [create_purchase_order, hfresh, hall]

/-- Request with one line of total 500 for the C10 witness. -/
def c10Req : POCreateReq :=
  { po_number := "PO-X",
    line_items := [{ item_description := "Widget", unit := "Nos",
                     quantity := 5, unit_price := 100,
                     discount_percentage := 0, total_amount := 500 }] }

/-- Witness for `po_creation_not_atomic`: into an empty database, with
every line-item insert failing, the header alone is persisted. -/
theorem po_creation_not_atomic_witness :
    create_purchase_order [] c10Req 1 (fun _ => false) =
      ([{ id := 1, po_number := "PO-X", status := POStatus.draft,
          subtotal := 500, total_amount := 500, items := [] }],
       .error .lineItemInsertFailed) := by
  have h := po_creation_not_atomic [] c10Req 1 (fun _ => false) rfl 0
    (by norm_num [c10Req]) rfl
  simpa [c10Req] using h

end JusFinn
